import Mathlib

/-!
# BG-RSB driver (drivers/soc/qcom/bg_rsb.c)

A shallow embedding of the driver's handlers as state-passing functions.

The driver talks to three services that live outside the file: the regulator
service (the two rails LDO11 = "LDO-A" and LDO15 = "LDO-B"), the G-Link
transport, and the kernel's mutex, completion and wait primitives.  Every call
the driver issues to one of them is appended, with its arguments, to a log
(`World.calls`) in program order.  The value each call returns is read from an
`Env` record, one record per handler invocation; no handler issues the same
external call twice, so one field per call is enough.  Theorems quantify over
the whole record, that is over every combination of answers.

* Return values are C `int`s, modelled as `Int`; every test in the source is a
  test against zero.  The result of a wait is a `Nat`, `0` meaning "timed out".
* The status of a rail belongs to the regulator, not to the driver.  It is kept
  in `World.ldo11_on` and `World.ldo15_on` and changes only when an enable or a
  disable call reports success.
* `rx_buf` is a list of bytes, followed by the memory behind it, so that the
  length of a copy into it can be observed.
* Handlers are taken one at a time; two handlers running interleaved are not
  modelled.  The only callback that runs inside a handler is the receive
  callback, which is what completes the response wait of `bgrsb_configr_rsb`;
  at most one packet is delivered during one exchange.
-/

namespace BgRsb

/-! ## Constants of the source -/

def BGRSB_GLINK_INTENT_SIZE : Nat := 0x04
def BGRSB_MSG_SIZE : Nat := 0x08
def TIMEOUT_MS : Nat := 500

def BGRSB_LDO15_VTG_MIN_UV : Nat := 3300000
def BGRSB_LDO15_VTG_MAX_UV : Nat := 3300000

def BGRSB_LDO11_VTG_MIN_UV : Nat := 1800000
def BGRSB_LDO11_VTG_MAX_UV : Nat := 1800000

/-- Value of `EINVAL` in the kernel's errno headers, which the file includes. -/
def EINVAL : Int := 22

/-- Value of `ENODEV` in the kernel's errno headers, which the file includes. -/
def ENODEV : Int := 19

/-- Value of `ETIMEDOUT` in the kernel's errno headers, which the file includes. -/
def ETIMEDOUT : Int := 110

/-! ## Data model -/

inductive ldo_task where
  | BGRSB_ENABLE_LDO11
  | BGRSB_ENABLE_LDO15
  | BGRSB_DISABLE_LDO11
  | BGRSB_DISABLE_LDO15
  | BGRSB_NO_ACTION
  deriving DecidableEq, Repr

inductive bgrsb_state where
  | BGRSB_STATE_UNKNOWN
  | BGRSB_STATE_INIT
  | BGRSB_STATE_LDO11_ENABLED
  | BGRSB_STATE_RSB_CONFIGURED
  | BGRSB_STATE_LDO15_ENABLED
  | BGRSB_STATE_RSB_ENABLED
  deriving DecidableEq, Repr

/-- The 8-byte wire record `struct bgrsb_msg`. -/
structure bgrsb_msg where
  cmd_id : Nat
  data : Nat
  deriving DecidableEq, Repr

/-- The two regulator handles of `struct bgrsb_regulator`. -/
inductive Rail where
  | regldo11
  | regldo15
  deriving DecidableEq, Repr

/-- The completions of `struct bgrsb_priv` the handlers wait on. -/
inductive Completion where
  | bg_resp_cmplt
  | tx_done
  | bg_lnikup_cmplt
  deriving DecidableEq, Repr

/-- The events `bgrsb_glink_notify_state` distinguishes. -/
inductive glink_event where
  | GLINK_CONNECTED
  | GLINK_LOCAL_DISCONNECTED
  | GLINK_REMOTE_DISCONNECTED
  deriving DecidableEq, Repr

/-- One call issued by the driver to a service outside the file, with the
arguments it passes.  A channel handle is `none` for `NULL`; the timeout of a
wait is the number of milliseconds handed to `msecs_to_jiffies`. -/
inductive Call where
  | regulator_set_voltage (r : Rail) (min_uV max_uV : Nat)
  | regulator_enable (r : Rail)
  | regulator_disable (r : Rail)
  | regulator_set_optimum_mode (r : Rail) (uA_load : Nat)
  | mutex_lock
  | mutex_unlock
  | init_completion (c : Completion)
  | complete (c : Completion)
  | wait_for_completion_timeout (c : Completion) (ms : Nat)
  | wait_event_timeout (ms : Nat)
  | glink_queue_rx_intent (handle : Option Nat) (size : Nat)
  | glink_tx (handle : Option Nat) (msg : bgrsb_msg) (len : Nat)
  | glink_rx_done (handle : Option Nat)
  | glink_close (handle : Option Nat)
  deriving DecidableEq, Repr

/-- The fields of `struct bgrsb_priv` the handlers read or write.  `rx_buf` is
the `char rx_buf[BGRSB_GLINK_INTENT_SIZE]` array, one `Nat` per byte;
`past_rx_buf` is the memory laid out right after it (the rest of the struct and
what follows), so that a copy longer than the array has somewhere to land. -/
structure bgrsb_priv where
  handle : Option Nat
  bgrsb_current_state : bgrsb_state
  chnl_state : Bool
  rx_buf : List Nat
  past_rx_buf : List Nat
  deriving DecidableEq, Repr

/-- The driver instance together with what lies outside it: whether each rail
is on at the regulator, and the log of external calls issued so far. -/
structure World where
  dev : bgrsb_priv
  ldo11_on : Bool
  ldo15_on : Bool
  calls : List Call
  deriving DecidableEq, Repr

/-- A received packet as handed to `notify_rx`: the bytes at `ptr` and `size`. -/
structure Packet where
  ptr : List Nat
  size : Nat
  deriving DecidableEq, Repr

/-- What the outside world answers during one handler invocation.  `rx` is the
packet the transport delivers through `bgrsb_glink_notify_rx` while the handler
waits for the response, `none` when nothing arrives before the timeout. -/
structure Env where
  set_voltage_ldo11 : Int
  enable_ldo11 : Int
  disable_ldo11 : Int
  set_voltage_ldo15 : Int
  enable_ldo15 : Int
  disable_ldo15 : Int
  wait_event : Nat
  queue_rx_intent : Int
  glink_tx : Int
  tx_done_wait : Nat
  rx : Option Packet
  deriving DecidableEq, Repr

/-! ## Plumbing -/

/-- Append one external call to the log. -/
def call (w : World) (c : Call) : World :=
  { w with calls := w.calls ++ [c] }

/-- Assignment to `dev->bgrsb_current_state`. -/
def set_state (w : World) (s : bgrsb_state) : World :=
  { w with dev := { w.dev with bgrsb_current_state := s } }

/-- Record at the regulator whether rail `r` is on. -/
def set_rail (w : World) (r : Rail) (b : Bool) : World :=
  match r with
  | .regldo11 => { w with ldo11_on := b }
  | .regldo15 => { w with ldo15_on := b }

/-- Modelled from the spec: the regulator service's `enable`, which is not part
of the file.  The call is logged; the rail is on afterwards when the call
reports success (`rc = 0`) and is left as it was when it reports a failure. -/
def regulator_enable (w : World) (r : Rail) (rc : Int) : World :=
  let w := call w (.regulator_enable r)
  if rc = 0 then set_rail w r true else w

/-- Modelled from the spec: the regulator service's `disable`, which is not
part of the file.  The call is logged; the rail is off afterwards when the call
reports success (`rc = 0`) and is left as it was when it reports a failure. -/
def regulator_disable (w : World) (r : Rail) (rc : Int) : World :=
  let w := call w (.regulator_disable r)
  if rc = 0 then set_rail w r false else w

/-- The bytes `memcpy(dst, src, n)` leaves in the memory starting at `dst`:
`n` bytes of `src`, then what was there before. -/
def memcpy (dst src : List Nat) (n : Nat) : List Nat :=
  (List.range n).map (fun i => src.getD i 0) ++ dst.drop n

/-- The value of `*(uint32_t *)buf` on the little-endian target (each element
is read as one byte). -/
def read_u32 (buf : List Nat) : Nat :=
  buf.getD 0 0 % 256 + 256 * (buf.getD 1 0 % 256) + 65536 * (buf.getD 2 0 % 256)
    + 16777216 * (buf.getD 3 0 % 256)

/-! ## The functions of the driver -/

/-- Source function `bgrsb_glink_notify_rx`: the receive callback. -/
def bgrsb_glink_notify_rx (w : World) (ptr : List Nat) (size : Nat) : World :=
  let mem := memcpy (w.dev.rx_buf ++ w.dev.past_rx_buf) ptr size
  let w := { w with dev := { w.dev with
    rx_buf := mem.take BGRSB_GLINK_INTENT_SIZE,
    past_rx_buf := mem.drop BGRSB_GLINK_INTENT_SIZE } }
  let w := call w (.glink_rx_done w.dev.handle)
  call w (.complete .bg_resp_cmplt)

/-- Source function `bgrsb_glink_notify_state`: the channel-state callback. -/
def bgrsb_glink_notify_state (w : World) (event : glink_event) : World :=
  match event with
  | .GLINK_CONNECTED => call w (.complete .bg_lnikup_cmplt)
  | .GLINK_REMOTE_DISCONNECTED => { w with dev := { w.dev with chnl_state := false } }
  | .GLINK_LOCAL_DISCONNECTED => { w with dev := { w.dev with chnl_state := false } }

/-- Source function `bgrsb_configr_rsb`.  The wait on `bg_resp_cmplt` returns
non-zero exactly when `bgrsb_glink_notify_rx`, the only place that completes
it, has run since `init_completion`; the callback is run here, on the packet
`env.rx`. -/
def bgrsb_configr_rsb (w : World) (env : Env) (enable : Bool) : Int × World := Id.run do
  let mut w := w
  let mut rc : Int := 0
  w := call w .mutex_lock
  w := call w (.init_completion .bg_resp_cmplt)
  w := call w (.init_completion .tx_done)
  w := call w (.glink_queue_rx_intent w.dev.handle BGRSB_GLINK_INTENT_SIZE)
  rc := env.queue_rx_intent
  if rc ≠ 0 then
    return (rc, call w .mutex_unlock)
  let req : bgrsb_msg := { cmd_id := 0x01, data := if enable then 0x01 else 0x00 }
  w := call w (.glink_tx w.dev.handle req BGRSB_MSG_SIZE)
  rc := env.glink_tx
  if rc ≠ 0 then
    return (rc, call w .mutex_unlock)
  w := call w (.wait_for_completion_timeout .tx_done (TIMEOUT_MS * 2))
  if env.tx_done_wait = 0 then
    return (-ETIMEDOUT, call w .mutex_unlock)
  w := call w (.wait_for_completion_timeout .bg_resp_cmplt TIMEOUT_MS)
  match env.rx with
  | none =>
    return (-ETIMEDOUT, call w .mutex_unlock)
  | some pkt =>
    w := bgrsb_glink_notify_rx w pkt.ptr pkt.size
    let resp := read_u32 w.dev.rx_buf
    if ¬ (resp = 0x01) then
      return (-EINVAL, call w .mutex_unlock)
    return (0, call w .mutex_unlock)

/-- Source function `bgrsb_glink_close_work`. -/
def bgrsb_glink_close_work (w : World) : World := Id.run do
  let mut w := w
  if w.dev.handle.isSome then
    w := call w (.glink_close w.dev.handle)
  return { w with dev := { w.dev with handle := none } }

/-- Source function `bgrsb_ldo_work`. -/
def bgrsb_ldo_work (w : World) (env : Env) (ldo_action : ldo_task) : Int × World := Id.run do
  let mut w := w
  let mut ret : Int := 0
  match ldo_action with
  | .BGRSB_ENABLE_LDO11 =>
    w := call w (.regulator_set_voltage .regldo11 BGRSB_LDO11_VTG_MIN_UV BGRSB_LDO11_VTG_MAX_UV)
    ret := env.set_voltage_ldo11
    if ret ≠ 0 then
      return (ret, w)
    w := regulator_enable w .regldo11 env.enable_ldo11
    ret := env.enable_ldo11
    if ret ≠ 0 then
      return (ret, w)
  | .BGRSB_ENABLE_LDO15 =>
    w := call w (.regulator_set_voltage .regldo15 BGRSB_LDO15_VTG_MIN_UV BGRSB_LDO15_VTG_MAX_UV)
    ret := env.set_voltage_ldo15
    if ret ≠ 0 then
      return (ret, w)
    w := regulator_enable w .regldo15 env.enable_ldo15
    ret := env.enable_ldo15
    if ret ≠ 0 then
      return (ret, w)
  | .BGRSB_DISABLE_LDO11 =>
    w := regulator_disable w .regldo11 env.disable_ldo11
    ret := env.disable_ldo11
    if ret ≠ 0 then
      return (ret, w)
  | .BGRSB_DISABLE_LDO15 =>
    w := regulator_disable w .regldo15 env.disable_ldo15
    ret := env.disable_ldo15
    if ret ≠ 0 then
      return (ret, w)
    w := call w (.regulator_set_optimum_mode .regldo15 0)
  | .BGRSB_NO_ACTION =>
    ret := -EINVAL
  return (ret, w)

/-- Source function `bgrsb_bgdown_work`: the before-shutdown handler. -/
def bgrsb_bgdown_work (w : World) (env : Env) : World := Id.run do
  let mut w := w
  w := (bgrsb_ldo_work w env .BGRSB_DISABLE_LDO15).2
  w := (bgrsb_ldo_work w env .BGRSB_DISABLE_LDO11).2
  return set_state w .BGRSB_STATE_INIT

/-- Source function `bgrsb_bgup_work`: the bring-up sequence. -/
def bgrsb_bgup_work (w : World) (env : Env) : World := Id.run do
  let mut w := w
  let r := bgrsb_ldo_work w env .BGRSB_ENABLE_LDO11
  w := r.2
  if r.1 = 0 then
    w := call w (.wait_event_timeout (TIMEOUT_MS * 4))
    if env.wait_event = 0 then
      return w
    let c := bgrsb_configr_rsb w env true
    w := c.2
    if c.1 ≠ 0 then
      let d := bgrsb_ldo_work w env .BGRSB_DISABLE_LDO11
      w := d.2
      if d.1 = 0 then
        w := set_state w .BGRSB_STATE_INIT
      return w
    w := set_state w .BGRSB_STATE_RSB_CONFIGURED
  return w

/-- Source function `bgrsb_tx_msg`. -/
def bgrsb_tx_msg (w : World) (env : Env) (msg : bgrsb_msg) (len : Nat) : Int × World := Id.run do
  let mut w := w
  let mut rc : Int := 0
  if ¬ w.dev.chnl_state then
    return (-ENODEV, w)
  w := call w .mutex_lock
  w := call w (.init_completion .tx_done)
  w := call w (.glink_tx w.dev.handle msg len)
  rc := env.glink_tx
  if rc ≠ 0 then
    return (rc, call w .mutex_unlock)
  w := call w (.wait_for_completion_timeout .tx_done TIMEOUT_MS)
  if env.tx_done_wait = 0 then
    return (-ETIMEDOUT, call w .mutex_unlock)
  rc := 0
  return (rc, call w .mutex_unlock)

/-- Source function `bgrsb_enable_rsb`: the enable-delivery handler. -/
def bgrsb_enable_rsb (w : World) (env : Env) : World := Id.run do
  let mut w := w
  if w.dev.bgrsb_current_state ≠ .BGRSB_STATE_RSB_CONFIGURED then
    return w
  let r := bgrsb_ldo_work w env .BGRSB_ENABLE_LDO15
  w := r.2
  if r.1 = 0 then
    let req : bgrsb_msg := { cmd_id := 0x02, data := 0x01 }
    let t := bgrsb_tx_msg w env req BGRSB_MSG_SIZE
    w := t.2
    if t.1 ≠ 0 then
      w := (bgrsb_ldo_work w env .BGRSB_DISABLE_LDO15).2
      w := set_state w .BGRSB_STATE_RSB_CONFIGURED
      return w
  w := set_state w .BGRSB_STATE_RSB_ENABLED
  return w

/-- Source function `bgrsb_disable_rsb`: the disable-delivery handler. -/
def bgrsb_disable_rsb (w : World) (env : Env) : World := Id.run do
  let mut w := w
  if w.dev.bgrsb_current_state = .BGRSB_STATE_RSB_ENABLED then
    let r := bgrsb_ldo_work w env .BGRSB_DISABLE_LDO15
    w := r.2
    if r.1 ≠ 0 then
      return w
    let req : bgrsb_msg := { cmd_id := 0x02, data := 0x00 }
    let t := bgrsb_tx_msg w env req BGRSB_MSG_SIZE
    w := t.2
    if t.1 ≠ 0 then
      return w
    w := set_state w .BGRSB_STATE_RSB_CONFIGURED
  return w

/-- Source function `bg_rsb_resume`. -/
def bg_rsb_resume (w : World) (env : Env) : Int × World := Id.run do
  let mut w := w
  if w.dev.bgrsb_current_state = .BGRSB_STATE_RSB_CONFIGURED then
    return (0, w)
  if w.dev.bgrsb_current_state = .BGRSB_STATE_INIT then
    let r := bgrsb_ldo_work w env .BGRSB_ENABLE_LDO11
    w := r.2
    if r.1 = 0 then
      w := set_state w .BGRSB_STATE_RSB_CONFIGURED
      return (0, w)
  return (-EINVAL, w)

/-- Source function `bg_rsb_suspend`. -/
def bg_rsb_suspend (w : World) (env : Env) : Int × World := Id.run do
  let mut w := w
  if w.dev.bgrsb_current_state = .BGRSB_STATE_INIT then
    return (0, w)
  if w.dev.bgrsb_current_state = .BGRSB_STATE_RSB_ENABLED then
    let r := bgrsb_ldo_work w env .BGRSB_DISABLE_LDO15
    w := r.2
    if r.1 ≠ 0 then
      return (-EINVAL, w)
  let r := bgrsb_ldo_work w env .BGRSB_DISABLE_LDO11
  w := r.2
  if r.1 = 0 then
    w := set_state w .BGRSB_STATE_INIT
    return (0, w)
  return (-EINVAL, w)

/-- The run of the four handlers in the order bring-up, enable delivery,
disable delivery, before-shutdown notice, each with its own answers from the
outside world. -/
def bringup_enable_disable_shutdown (w : World) (e1 e2 e3 e4 : Env) : World :=
  bgrsb_bgdown_work (bgrsb_disable_rsb (bgrsb_enable_rsb (bgrsb_bgup_work w e1) e2) e3) e4

/-! ## Reading the call log -/

/-- The calls a handler has added to the log: what `after` holds behind the
calls that were already in `before`. -/
def new_calls (before after : World) : List Call :=
  after.calls.drop before.calls.length

/-- The rail a regulator call acts on; `none` for every other call. -/
def Call.rail : Call → Option Rail
  | .regulator_set_voltage r _ _ => some r
  | .regulator_enable r => some r
  | .regulator_disable r => some r
  | .regulator_set_optimum_mode r _ => some r
  | _ => none

/-- The regulator calls of a log that act on rail `r`, in order. -/
def rail_calls (r : Rail) (cs : List Call) : List Call :=
  cs.filter (fun c => c.rail = some r)

/-- Whether the call is a transport send. -/
def Call.is_glink_tx : Call → Bool
  | .glink_tx _ _ _ => true
  | _ => false

/-- Whether the call queues a receive intent. -/
def Call.is_queue_rx_intent : Call → Bool
  | .glink_queue_rx_intent _ _ => true
  | _ => false

/-- Whether the call takes or releases `glink_mutex`. -/
def Call.is_mutex : Call → Bool
  | .mutex_lock => true
  | .mutex_unlock => true
  | _ => false

/-- The timeout of a `wait_for_completion_timeout` call, with what it waits on. -/
def Call.wait_timeout : Call → Option (Completion × Nat)
  | .wait_for_completion_timeout c ms => some (c, ms)
  | _ => none

/-- The bounded waits of a log, in order. -/
def wait_timeouts (cs : List Call) : List (Completion × Nat) :=
  cs.filterMap Call.wait_timeout

/-! ## Concrete inputs used below -/

/-- The instance right after `bgrsb_init`: zeroed by `devm_kzalloc`, state
`BGRSB_STATE_INIT`, with 12 zero bytes of the struct shown after `rx_buf`. -/
def dev_init : bgrsb_priv :=
  { handle := none, bgrsb_current_state := .BGRSB_STATE_INIT, chnl_state := false,
    rx_buf := [0, 0, 0, 0], past_rx_buf := List.replicate 12 0 }

/-- An instance whose channel is open (handle 1, connected). -/
def dev_connected (s : bgrsb_state) : bgrsb_priv :=
  { dev_init with handle := some 1, bgrsb_current_state := s, chnl_state := true }

/-- The world around instance `d` with the given rail status and an empty log. -/
def world_of (d : bgrsb_priv) (ldo11 ldo15 : Bool) : World :=
  { dev := d, ldo11_on := ldo11, ldo15_on := ldo15, calls := [] }

/-- The connected, delivering instance after the link-down work
`bgrsb_glink_close_work` has run: the handle is `NULL`. -/
def world_closed : World :=
  bgrsb_glink_close_work (world_of (dev_connected .BGRSB_STATE_RSB_ENABLED) true true)

/-- Every external call succeeds and the peer answers `01 00 00 00`. -/
def env_ok : Env :=
  { set_voltage_ldo11 := 0, enable_ldo11 := 0, disable_ldo11 := 0,
    set_voltage_ldo15 := 0, enable_ldo15 := 0, disable_ldo15 := 0,
    wait_event := 1, queue_rx_intent := 0, glink_tx := 0, tx_done_wait := 1,
    rx := some { ptr := [1, 0, 0, 0], size := 4 } }

/-- The transport refuses a `NULL` handle: `glink_queue_rx_intent` and
`glink_tx` both answer `-EINVAL`. -/
def env_null_handle : Env :=
  { env_ok with queue_rx_intent := -22, glink_tx := -22 }

/-! ## What each function does, case by case -/

theorem new_calls_of_append (w v : World) (l : List Call) (h : v.calls = w.calls ++ l) :
    new_calls w v = l := by
  simp [new_calls, h]

theorem ldo_work_enable11 (w : World) (env : Env) :
    bgrsb_ldo_work w env .BGRSB_ENABLE_LDO11 =
      if env.set_voltage_ldo11 ≠ 0 then
        (env.set_voltage_ldo11,
          call w (.regulator_set_voltage .regldo11 BGRSB_LDO11_VTG_MIN_UV BGRSB_LDO11_VTG_MAX_UV))
      else
        (env.enable_ldo11,
          regulator_enable
            (call w (.regulator_set_voltage .regldo11 BGRSB_LDO11_VTG_MIN_UV BGRSB_LDO11_VTG_MAX_UV))
            .regldo11 env.enable_ldo11) := by
  by_cases h : env.set_voltage_ldo11 = 0 <;> by_cases h2 : env.enable_ldo11 = 0 <;>
    simp [bgrsb_ldo_work, Id.run, h, h2]

theorem ldo_work_enable15 (w : World) (env : Env) :
    bgrsb_ldo_work w env .BGRSB_ENABLE_LDO15 =
      if env.set_voltage_ldo15 ≠ 0 then
        (env.set_voltage_ldo15,
          call w (.regulator_set_voltage .regldo15 BGRSB_LDO15_VTG_MIN_UV BGRSB_LDO15_VTG_MAX_UV))
      else
        (env.enable_ldo15,
          regulator_enable
            (call w (.regulator_set_voltage .regldo15 BGRSB_LDO15_VTG_MIN_UV BGRSB_LDO15_VTG_MAX_UV))
            .regldo15 env.enable_ldo15) := by
  by_cases h : env.set_voltage_ldo15 = 0 <;> by_cases h2 : env.enable_ldo15 = 0 <;>
    simp [bgrsb_ldo_work, Id.run, h, h2]

theorem ldo_work_disable11 (w : World) (env : Env) :
    bgrsb_ldo_work w env .BGRSB_DISABLE_LDO11 =
      (env.disable_ldo11, regulator_disable w .regldo11 env.disable_ldo11) := by
  by_cases h : env.disable_ldo11 = 0 <;> simp [bgrsb_ldo_work, Id.run, h]

theorem ldo_work_disable15 (w : World) (env : Env) :
    bgrsb_ldo_work w env .BGRSB_DISABLE_LDO15 =
      if env.disable_ldo15 ≠ 0 then
        (env.disable_ldo15, regulator_disable w .regldo15 env.disable_ldo15)
      else
        (0, call (regulator_disable w .regldo15 env.disable_ldo15)
              (.regulator_set_optimum_mode .regldo15 0)) := by
  by_cases h : env.disable_ldo15 = 0 <;> simp [bgrsb_ldo_work, Id.run, h]

theorem tx_msg_cases (w : World) (env : Env) (msg : bgrsb_msg) (len : Nat) :
    bgrsb_tx_msg w env msg len =
      if w.dev.chnl_state = false then (-ENODEV, w)
      else if env.glink_tx ≠ 0 then
        (env.glink_tx, { w with calls := w.calls ++
          [.mutex_lock, .init_completion .tx_done, .glink_tx w.dev.handle msg len,
           .mutex_unlock] })
      else
        (if env.tx_done_wait = 0 then -ETIMEDOUT else 0, { w with calls := w.calls ++
          [.mutex_lock, .init_completion .tx_done, .glink_tx w.dev.handle msg len,
           .wait_for_completion_timeout .tx_done TIMEOUT_MS, .mutex_unlock] }) := by
  by_cases h : w.dev.chnl_state = false <;> by_cases h2 : env.glink_tx = 0 <;>
    by_cases h3 : env.tx_done_wait = 0 <;>
    simp [bgrsb_tx_msg, Id.run, call, h, h2, h3]

/-! ## Enable delivery -/

/-- C1: started in `RsbConfigured`, when the LDO15 (LDO-B) enable fails, at the
voltage request or at the enable itself, `bgrsb_enable_rsb` sends nothing and
still ends in `RsbEnabled`; the rail is left as the failing call left it. -/
theorem bgrsb_enable_rsb_ldo15_failure_ends_enabled (w : World) (env : Env)
    (hs : w.dev.bgrsb_current_state = .BGRSB_STATE_RSB_CONFIGURED)
    (hf : env.set_voltage_ldo15 ≠ 0 ∨ (env.set_voltage_ldo15 = 0 ∧ env.enable_ldo15 ≠ 0)) :
    (bgrsb_enable_rsb w env).dev.bgrsb_current_state = .BGRSB_STATE_RSB_ENABLED ∧
    (bgrsb_enable_rsb w env).ldo15_on = w.ldo15_on ∧
    (new_calls w (bgrsb_enable_rsb w env)).countP Call.is_glink_tx = 0 := by
  rcases hf with hv | ⟨hv, he⟩
  · simp [bgrsb_enable_rsb, Id.run, hs, ldo_work_enable15, hv, set_state, call, new_calls,
      Call.is_glink_tx]
  · simp [bgrsb_enable_rsb, Id.run, hs, ldo_work_enable15, hv, he, set_state, call,
      regulator_enable, new_calls, Call.is_glink_tx, List.countP_cons]

/-- The failing input of C1: `RsbConfigured`, channel connected, LDO11 on, LDO15
off, and `regulator_set_voltage` on LDO15 answering `-EINVAL`. -/
theorem bgrsb_enable_rsb_ldo15_failure_witness :
    (bgrsb_enable_rsb (world_of (dev_connected .BGRSB_STATE_RSB_CONFIGURED) true false)
        { env_ok with set_voltage_ldo15 := -22 }).dev.bgrsb_current_state
      = .BGRSB_STATE_RSB_ENABLED ∧
    (bgrsb_enable_rsb (world_of (dev_connected .BGRSB_STATE_RSB_CONFIGURED) true false)
        { env_ok with set_voltage_ldo15 := -22 }).ldo15_on = false :=
  have h := bgrsb_enable_rsb_ldo15_failure_ends_enabled
    (world_of (dev_connected .BGRSB_STATE_RSB_CONFIGURED) true false)
    { env_ok with set_voltage_ldo15 := -22 } rfl (Or.inl (by decide))
  ⟨h.1, h.2.1⟩

/-- C2, as stated, fails: in `RsbConfigured` with the LDO15 (LDO-B) enable
succeeding, the send refused by the transport (`glink_tx` answers `-EIO`) and
the rollback `regulator_disable` on LDO15 answering `-EIO` as well,
`bgrsb_enable_rsb` does issue the disable after the enable and ends in
`RsbConfigured`, but LDO15 is still on at the end. -/
theorem enable_rsb_rollback_disable_can_fail :
    (bgrsb_enable_rsb (world_of (dev_connected .BGRSB_STATE_RSB_CONFIGURED) true false)
        { env_ok with glink_tx := -5, disable_ldo15 := -5 }).dev.bgrsb_current_state
      = .BGRSB_STATE_RSB_CONFIGURED ∧
    rail_calls .regldo15
      (bgrsb_enable_rsb (world_of (dev_connected .BGRSB_STATE_RSB_CONFIGURED) true false)
        { env_ok with glink_tx := -5, disable_ldo15 := -5 }).calls =
      [.regulator_set_voltage .regldo15 3300000 3300000, .regulator_enable .regldo15,
       .regulator_disable .regldo15] ∧
    (bgrsb_enable_rsb (world_of (dev_connected .BGRSB_STATE_RSB_CONFIGURED) true false)
        { env_ok with glink_tx := -5, disable_ldo15 := -5 }).ldo15_on = true := by
  decide

/-- C2, amended: started in `RsbConfigured`, when the LDO15 (LDO-B) enable
succeeds and the `setDelivery(true)` exchange fails (channel not connected,
send error or send-acknowledgement timeout), `bgrsb_enable_rsb` leaves the
state at `RsbConfigured`; the calls it issues on LDO15 are, in order, the
voltage request, the enable and then the disable (followed by the optimum-mode
request when the disable succeeded), and it issues none on LDO11; the result
of that disable is ignored, and LDO15 is off at the end whenever the disable
call reports success. -/
theorem bgrsb_enable_rsb_tx_failure_rolls_back (w : World) (env : Env)
    (hs : w.dev.bgrsb_current_state = .BGRSB_STATE_RSB_CONFIGURED)
    (hv : env.set_voltage_ldo15 = 0) (he : env.enable_ldo15 = 0)
    (ht : w.dev.chnl_state = false ∨ env.glink_tx ≠ 0 ∨ env.tx_done_wait = 0) :
    (bgrsb_enable_rsb w env).dev.bgrsb_current_state = .BGRSB_STATE_RSB_CONFIGURED ∧
    (bgrsb_enable_rsb w env).calls = w.calls ++ new_calls w (bgrsb_enable_rsb w env) ∧
    rail_calls .regldo15 (new_calls w (bgrsb_enable_rsb w env)) =
      [.regulator_set_voltage .regldo15 BGRSB_LDO15_VTG_MIN_UV BGRSB_LDO15_VTG_MAX_UV,
       .regulator_enable .regldo15, .regulator_disable .regldo15] ++
      (if env.disable_ldo15 = 0 then [.regulator_set_optimum_mode .regldo15 0] else []) ∧
    rail_calls .regldo11 (new_calls w (bgrsb_enable_rsb w env)) = [] ∧
    (env.disable_ldo15 = 0 → (bgrsb_enable_rsb w env).ldo15_on = false) := by
  by_cases hc : w.dev.chnl_state = false
  · by_cases hd : env.disable_ldo15 = 0 <;>
      simp [bgrsb_enable_rsb, Id.run, hs, ldo_work_enable15, ldo_work_disable15, tx_msg_cases,
        hv, he, hc, hd, set_state, call, regulator_enable, regulator_disable, set_rail,
        ENODEV, rail_calls, Call.rail, new_calls]
  · by_cases hg : env.glink_tx = 0
    · have hw : env.tx_done_wait = 0 := by
        rcases ht with h | h | h
        · exact absurd h hc
        · exact absurd hg h
        · exact h
      by_cases hd : env.disable_ldo15 = 0 <;>
        simp [bgrsb_enable_rsb, Id.run, hs, ldo_work_enable15, ldo_work_disable15,
          tx_msg_cases, hv, he, hc, hd, hg, hw, set_state, call, regulator_enable,
          regulator_disable, set_rail, ETIMEDOUT, rail_calls, Call.rail, new_calls]
    · by_cases hd : env.disable_ldo15 = 0 <;>
        simp [bgrsb_enable_rsb, Id.run, hs, ldo_work_enable15, ldo_work_disable15,
          tx_msg_cases, hv, he, hc, hd, hg, set_state, call, regulator_enable,
          regulator_disable, set_rail, rail_calls, Call.rail, new_calls]

/-- A world in `RsbConfigured` with the channel connected but the transport's
acknowledgement of the send never arriving. -/
theorem bgrsb_enable_rsb_tx_failure_witness :
    (bgrsb_enable_rsb (world_of (dev_connected .BGRSB_STATE_RSB_CONFIGURED) true false)
        { env_ok with tx_done_wait := 0 }).dev.bgrsb_current_state
      = .BGRSB_STATE_RSB_CONFIGURED ∧
    (bgrsb_enable_rsb (world_of (dev_connected .BGRSB_STATE_RSB_CONFIGURED) true false)
        { env_ok with tx_done_wait := 0 }).ldo15_on = false :=
  have h := bgrsb_enable_rsb_tx_failure_rolls_back
    (world_of (dev_connected .BGRSB_STATE_RSB_CONFIGURED) true false)
    { env_ok with tx_done_wait := 0 } rfl rfl rfl (Or.inr (Or.inr rfl))
  ⟨h.1, h.2.2.2.2 rfl⟩

/-! ## Suspend -/

/-- C3: started in `RsbEnabled`, when the disable of LDO15 (LDO-B) fails,
`bg_rsb_suspend` returns `-EINVAL`, the only call it has issued is that disable
(so nothing on LDO11, LDO-A), and the driver state, `RsbEnabled` included, and
both rails are as before. -/
theorem bg_rsb_suspend_ldo15_failure_aborts (w : World) (env : Env)
    (hs : w.dev.bgrsb_current_state = .BGRSB_STATE_RSB_ENABLED)
    (hf : env.disable_ldo15 ≠ 0) :
    (bg_rsb_suspend w env).1 = -EINVAL ∧
    (bg_rsb_suspend w env).1 ≠ 0 ∧
    (bg_rsb_suspend w env).2 = { w with calls := w.calls ++ [.regulator_disable .regldo15] } ∧
    rail_calls .regldo11 (new_calls w (bg_rsb_suspend w env).2) = [] ∧
    (bg_rsb_suspend w env).2.dev.bgrsb_current_state = .BGRSB_STATE_RSB_ENABLED := by
  simp [bg_rsb_suspend, Id.run, hs, ldo_work_disable15, hf, regulator_disable, call, EINVAL,
    rail_calls, Call.rail, new_calls]

/-- Suspend in `RsbEnabled` with `regulator_disable` on LDO15 answering `-EIO`. -/
theorem bg_rsb_suspend_ldo15_failure_witness :
    (bg_rsb_suspend (world_of (dev_connected .BGRSB_STATE_RSB_ENABLED) true true)
        { env_ok with disable_ldo15 := -5 }).1 = -EINVAL ∧
    (bg_rsb_suspend (world_of (dev_connected .BGRSB_STATE_RSB_ENABLED) true true)
        { env_ok with disable_ldo15 := -5 }).2.dev.bgrsb_current_state
      = .BGRSB_STATE_RSB_ENABLED :=
  have h := bg_rsb_suspend_ldo15_failure_aborts
    (world_of (dev_connected .BGRSB_STATE_RSB_ENABLED) true true)
    { env_ok with disable_ldo15 := -5 } rfl (by decide)
  ⟨h.1, h.2.2.2.2⟩

/-! ## Disable delivery -/

theorem bgdown_work_cases (w : World) (env : Env) :
    (bgrsb_bgdown_work w env).dev.bgrsb_current_state = .BGRSB_STATE_INIT ∧
    (bgrsb_bgdown_work w env).calls = w.calls ++ ([.regulator_disable .regldo15] ++
      (if env.disable_ldo15 = 0 then [.regulator_set_optimum_mode .regldo15 0] else []) ++
      [.regulator_disable .regldo11]) ∧
    (bgrsb_bgdown_work w env).ldo15_on = (if env.disable_ldo15 = 0 then false else w.ldo15_on) ∧
    (bgrsb_bgdown_work w env).ldo11_on = (if env.disable_ldo11 = 0 then false else w.ldo11_on) := by
  by_cases h5 : env.disable_ldo15 = 0 <;> by_cases h1 : env.disable_ldo11 = 0 <;>
    simp [bgrsb_bgdown_work, Id.run, ldo_work_disable15, ldo_work_disable11, h5, h1,
      regulator_disable, call, set_rail, set_state]

/-- C4, as stated, fails: a run from `Init` on a connected channel in which
delivery is enabled, the disable-delivery handler fails to switch LDO15 off,
and both disable calls of the shutdown handler answer `-EIO`.  The shutdown
handler issues both disables and the run ends in `Init`, but both rails are
still on at the end. -/
theorem shutdown_disables_can_fail :
    (world_of (dev_connected .BGRSB_STATE_INIT) false false).dev.bgrsb_current_state
      = .BGRSB_STATE_INIT ∧
    (bringup_enable_disable_shutdown (world_of (dev_connected .BGRSB_STATE_INIT) false false)
        env_ok env_ok { env_ok with disable_ldo15 := -5 }
        { env_ok with disable_ldo15 := -5, disable_ldo11 := -5 }).dev.bgrsb_current_state
      = .BGRSB_STATE_INIT ∧
    (new_calls
      (bgrsb_disable_rsb (bgrsb_enable_rsb (bgrsb_bgup_work
        (world_of (dev_connected .BGRSB_STATE_INIT) false false) env_ok) env_ok)
        { env_ok with disable_ldo15 := -5 })
      (bringup_enable_disable_shutdown (world_of (dev_connected .BGRSB_STATE_INIT) false false)
        env_ok env_ok { env_ok with disable_ldo15 := -5 }
        { env_ok with disable_ldo15 := -5, disable_ldo11 := -5 })) =
      [.regulator_disable .regldo15, .regulator_disable .regldo11] ∧
    (bringup_enable_disable_shutdown (world_of (dev_connected .BGRSB_STATE_INIT) false false)
        env_ok env_ok { env_ok with disable_ldo15 := -5 }
        { env_ok with disable_ldo15 := -5, disable_ldo11 := -5 }).ldo15_on = true ∧
    (bringup_enable_disable_shutdown (world_of (dev_connected .BGRSB_STATE_INIT) false false)
        env_ok env_ok { env_ok with disable_ldo15 := -5 }
        { env_ok with disable_ldo15 := -5, disable_ldo11 := -5 }).ldo11_on = true := by
  decide

/-- C4, amended: the run bring-up, enable delivery, disable delivery,
before-shutdown notice ends in `Init` whatever the starting world and whatever every external
call of the four handlers answers.  Each rail is off at the end when the
shutdown handler's disable call for it reports success, and is otherwise as
the first three handlers left it; so both rails are off whenever the two
disable calls report success.  The shutdown handler `bgrsb_bgdown_work` itself,
from any state, issues the disable of LDO15 (LDO-B) first, the disable of LDO11
(LDO-A) last, each once, and sets the state to `Init` whatever the two disable
calls answer. -/
theorem bgrsb_bgdown_work_forces_init (w : World) (e1 e2 e3 e4 : Env) :
    (bringup_enable_disable_shutdown w e1 e2 e3 e4).dev.bgrsb_current_state
      = .BGRSB_STATE_INIT ∧
    (bringup_enable_disable_shutdown w e1 e2 e3 e4).ldo15_on =
      (if e4.disable_ldo15 = 0 then false
       else (bgrsb_disable_rsb (bgrsb_enable_rsb (bgrsb_bgup_work w e1) e2) e3).ldo15_on) ∧
    (bringup_enable_disable_shutdown w e1 e2 e3 e4).ldo11_on =
      (if e4.disable_ldo11 = 0 then false
       else (bgrsb_disable_rsb (bgrsb_enable_rsb (bgrsb_bgup_work w e1) e2) e3).ldo11_on) ∧
    (e4.disable_ldo15 = 0 → e4.disable_ldo11 = 0 →
      (bringup_enable_disable_shutdown w e1 e2 e3 e4).ldo15_on = false ∧
      (bringup_enable_disable_shutdown w e1 e2 e3 e4).ldo11_on = false) ∧
    (∀ (v : World) (env : Env),
      (bgrsb_bgdown_work v env).dev.bgrsb_current_state = .BGRSB_STATE_INIT ∧
      (bgrsb_bgdown_work v env).calls = v.calls ++ new_calls v (bgrsb_bgdown_work v env) ∧
      (new_calls v (bgrsb_bgdown_work v env)).head? = some (.regulator_disable .regldo15) ∧
      (new_calls v (bgrsb_bgdown_work v env)).getLast? = some (.regulator_disable .regldo11) ∧
      rail_calls .regldo15 (new_calls v (bgrsb_bgdown_work v env)) =
        [.regulator_disable .regldo15] ++
        (if env.disable_ldo15 = 0 then [.regulator_set_optimum_mode .regldo15 0] else []) ∧
      rail_calls .regldo11 (new_calls v (bgrsb_bgdown_work v env)) =
        [.regulator_disable .regldo11]) := by
  have h := bgdown_work_cases
    (bgrsb_disable_rsb (bgrsb_enable_rsb (bgrsb_bgup_work w e1) e2) e3) e4
  refine ⟨h.1, h.2.2.1, h.2.2.2, ?_, ?_⟩
  · intro h5 h1
    exact ⟨by simpa [h5, bringup_enable_disable_shutdown] using h.2.2.1,
      by simpa [h1, bringup_enable_disable_shutdown] using h.2.2.2⟩
  · intro v env
    have hn := new_calls_of_append v _ _ (bgdown_work_cases v env).2.1
    refine ⟨(bgdown_work_cases v env).1, ?_, ?_⟩
    · rw [hn]; exact (bgdown_work_cases v env).2.1
    · rw [hn]
      by_cases h5 : env.disable_ldo15 = 0 <;> simp [h5, rail_calls, Call.rail]

/-- The run from `Init` on a connected channel in which delivery is enabled
and the disable-delivery handler then fails to switch LDO15 off: both rails are
on and the state is `RsbEnabled` when the shutdown notice comes, and both rails
are off at the end. -/
theorem bgrsb_bgdown_work_forces_init_witness :
    (bgrsb_disable_rsb (bgrsb_enable_rsb (bgrsb_bgup_work
      (world_of (dev_connected .BGRSB_STATE_INIT) false false) env_ok) env_ok)
      { env_ok with disable_ldo15 := -5 }) =
      { dev := { dev_connected .BGRSB_STATE_RSB_ENABLED with rx_buf := [1, 0, 0, 0] },
        ldo11_on := true, ldo15_on := true,
        calls := (bgrsb_disable_rsb (bgrsb_enable_rsb (bgrsb_bgup_work
          (world_of (dev_connected .BGRSB_STATE_INIT) false false) env_ok) env_ok)
          { env_ok with disable_ldo15 := -5 }).calls } ∧
    (bringup_enable_disable_shutdown (world_of (dev_connected .BGRSB_STATE_INIT) false false)
        env_ok env_ok { env_ok with disable_ldo15 := -5 } env_ok).ldo15_on = false ∧
    (bringup_enable_disable_shutdown (world_of (dev_connected .BGRSB_STATE_INIT) false false)
        env_ok env_ok { env_ok with disable_ldo15 := -5 } env_ok).ldo11_on = false :=
  ⟨by decide,
    (bgrsb_bgdown_work_forces_init (world_of (dev_connected .BGRSB_STATE_INIT) false false)
      env_ok env_ok { env_ok with disable_ldo15 := -5 } env_ok).2.2.2.1 rfl rfl⟩

/-! ## Configure -/

theorem configr_rsb_calls (w : World) (env : Env) (enable : Bool) :
    (bgrsb_configr_rsb w env enable).2.calls = w.calls ++
      ([.mutex_lock, .init_completion .bg_resp_cmplt, .init_completion .tx_done,
        .glink_queue_rx_intent w.dev.handle BGRSB_GLINK_INTENT_SIZE] ++
      (if env.queue_rx_intent ≠ 0 then [] else
        [.glink_tx w.dev.handle ⟨0x01, if enable then 0x01 else 0x00⟩ BGRSB_MSG_SIZE] ++
        (if env.glink_tx ≠ 0 then [] else
          [.wait_for_completion_timeout .tx_done (TIMEOUT_MS * 2)] ++
          (if env.tx_done_wait = 0 then [] else
            [.wait_for_completion_timeout .bg_resp_cmplt TIMEOUT_MS] ++
            (if env.rx.isSome then
              [.glink_rx_done w.dev.handle, .complete .bg_resp_cmplt] else [])))) ++
      [.mutex_unlock]) := by
  by_cases hq : env.queue_rx_intent = 0 <;> by_cases hg : env.glink_tx = 0 <;>
    by_cases hw : env.tx_done_wait = 0 <;> rcases hr : env.rx with _ | pkt <;>
    (simp [bgrsb_configr_rsb, Id.run, call, bgrsb_glink_notify_rx, hq, hg, hw, hr]
     try (split <;> simp))

theorem configr_rsb_keeps_state (w : World) (env : Env) (enable : Bool) :
    (bgrsb_configr_rsb w env enable).2.dev.bgrsb_current_state = w.dev.bgrsb_current_state ∧
    (bgrsb_configr_rsb w env enable).2.ldo11_on = w.ldo11_on ∧
    (bgrsb_configr_rsb w env enable).2.ldo15_on = w.ldo15_on := by
  by_cases hq : env.queue_rx_intent = 0 <;> by_cases hg : env.glink_tx = 0 <;>
    by_cases hw : env.tx_done_wait = 0 <;> rcases hr : env.rx with _ | pkt <;>
    (simp [bgrsb_configr_rsb, Id.run, call, bgrsb_glink_notify_rx, hq, hg, hw, hr]
     try (split <;> simp))

/-- The return value of `bgrsb_configr_rsb` once the send was acknowledged and
the packet `pkt` came in: decided by the word then found in `rx_buf`. -/
theorem configr_rsb_rc (w : World) (env : Env) (enable : Bool) (pkt : Packet)
    (hq : env.queue_rx_intent = 0) (hg : env.glink_tx = 0) (hw : env.tx_done_wait ≠ 0)
    (hr : env.rx = some pkt) :
    (bgrsb_configr_rsb w env enable).2.dev.rx_buf =
      (memcpy (w.dev.rx_buf ++ w.dev.past_rx_buf) pkt.ptr pkt.size).take
        BGRSB_GLINK_INTENT_SIZE ∧
    (bgrsb_configr_rsb w env enable).1 =
      if read_u32 (bgrsb_configr_rsb w env enable).2.dev.rx_buf = 0x01 then 0 else -EINVAL := by
  simp [bgrsb_configr_rsb, Id.run, call, bgrsb_glink_notify_rx, hq, hg, hw, hr]
  split <;> simp_all

theorem read_u32_memcpy (dst src : List Nat) (n : Nat) (hn : BGRSB_GLINK_INTENT_SIZE ≤ n) :
    read_u32 ((memcpy dst src n).take BGRSB_GLINK_INTENT_SIZE) = read_u32 src := by
  have h4 : 4 ≤ n := hn
  have key : ∀ i, i < 4 →
      ((memcpy dst src n).take BGRSB_GLINK_INTENT_SIZE).getD i 0 = src.getD i 0 := by
    intro i hi
    have hin : i < n := by omega
    simp [memcpy, BGRSB_GLINK_INTENT_SIZE, List.getD_eq_getElem?_getD, List.getElem?_take,
      List.getElem?_append_left, hi, hin]
  simp only [read_u32, key 0 (by decide), key 1 (by decide), key 2 (by decide),
    key 3 (by decide)]

/-- C5: once the intent is queued, the send accepted and acknowledged, and a
4-byte response has arrived in time, `bgrsb_configr_rsb` returns 0 exactly when
the response word equals `0x01` and returns `-EINVAL` for every other word; a
bring-up (`bgrsb_bgup_work`) started in `Init` whose peer answers with such a
word ends in `Init`. -/
theorem bgrsb_configr_rsb_accepts_only_one (w : World) (env : Env) (enable : Bool)
    (pkt : Packet) (hq : env.queue_rx_intent = 0) (hg : env.glink_tx = 0)
    (hw : env.tx_done_wait ≠ 0) (hr : env.rx = some pkt)
    (hsz : pkt.size = BGRSB_GLINK_INTENT_SIZE) :
    ((bgrsb_configr_rsb w env enable).1 = 0 ↔ read_u32 pkt.ptr = 0x01) ∧
    (read_u32 pkt.ptr ≠ 0x01 → (bgrsb_configr_rsb w env enable).1 = -EINVAL) ∧
    (read_u32 pkt.ptr ≠ 0x01 → w.dev.bgrsb_current_state = .BGRSB_STATE_INIT →
      (bgrsb_bgup_work w env).dev.bgrsb_current_state = .BGRSB_STATE_INIT) := by
  have rc : ∀ (v : World) (en : Bool), (bgrsb_configr_rsb v env en).1 =
      if read_u32 pkt.ptr = 0x01 then 0 else -EINVAL := by
    intro v en
    have h := configr_rsb_rc v env en pkt hq hg hw hr
    rw [h.2, h.1, read_u32_memcpy _ _ _ (le_of_eq hsz.symm)]
  refine ⟨?_, ?_, ?_⟩
  · rw [rc]; by_cases h : read_u32 pkt.ptr = 0x01 <;> simp [h, EINVAL]
  · intro h; rw [rc]; simp [h]
  · intro h hs
    have hne : ∀ v : World, (bgrsb_configr_rsb v env true).1 ≠ 0 := by
      intro v; rw [rc]; simp [h, EINVAL]
    have hst : ∀ v : World, (bgrsb_configr_rsb v env true).2.dev.bgrsb_current_state
        = v.dev.bgrsb_current_state := fun v => (configr_rsb_keeps_state v env true).1
    by_cases hv : env.set_voltage_ldo11 = 0 <;> by_cases he : env.enable_ldo11 = 0 <;>
      by_cases hwe : env.wait_event = 0 <;> by_cases hd : env.disable_ldo11 = 0 <;>
      simp [bgrsb_bgup_work, Id.run, ldo_work_enable11, ldo_work_disable11, hv, he, hwe, hd,
        hne, hst, hs, regulator_enable, regulator_disable, set_rail, set_state, call]

/-- A bring-up from `Init` whose peer answers the configure command with 0,
next to the same bring-up with the answer 1, which reaches `RsbConfigured`. -/
theorem bgrsb_configr_rsb_accepts_only_one_witness :
    (bgrsb_bgup_work (world_of (dev_connected .BGRSB_STATE_INIT) false false)
        env_ok).dev.bgrsb_current_state = .BGRSB_STATE_RSB_CONFIGURED ∧
    (bgrsb_configr_rsb (world_of (dev_connected .BGRSB_STATE_INIT) true false)
        { env_ok with rx := some ⟨[0, 0, 0, 0], 4⟩ } true).1 = -EINVAL ∧
    (bgrsb_bgup_work (world_of (dev_connected .BGRSB_STATE_INIT) false false)
        { env_ok with rx := some ⟨[0, 0, 0, 0], 4⟩ }).dev.bgrsb_current_state
      = .BGRSB_STATE_INIT :=
  ⟨by decide,
   (bgrsb_configr_rsb_accepts_only_one (world_of (dev_connected .BGRSB_STATE_INIT) true false)
      { env_ok with rx := some ⟨[0, 0, 0, 0], 4⟩ } true ⟨[0, 0, 0, 0], 4⟩
      rfl rfl (by decide) rfl rfl).2.1 (by decide),
   (bgrsb_configr_rsb_accepts_only_one (world_of (dev_connected .BGRSB_STATE_INIT) false false)
      { env_ok with rx := some ⟨[0, 0, 0, 0], 4⟩ } true ⟨[0, 0, 0, 0], 4⟩
      rfl rfl (by decide) rfl rfl).2.2 (by decide) rfl⟩

/-! ## The channel handle -/

/-- C6, as stated, fails: after the link-down work the handle is `NULL`, yet
`bgrsb_tx_msg` still calls `glink_tx` on it and hands back the transport's
`-EINVAL`, and `bgrsb_configr_rsb` still calls `glink_queue_rx_intent` on it
and hands back the transport's `-EINVAL`; neither returns `-ENODEV`. -/
theorem null_handle_reaches_transport :
    world_closed.dev.handle = none ∧
    Call.glink_tx none ⟨0x02, 0x00⟩ BGRSB_MSG_SIZE ∈
      (bgrsb_tx_msg world_closed env_null_handle ⟨0x02, 0x00⟩ BGRSB_MSG_SIZE).2.calls ∧
    (bgrsb_tx_msg world_closed env_null_handle ⟨0x02, 0x00⟩ BGRSB_MSG_SIZE).1 = -EINVAL ∧
    Call.glink_queue_rx_intent none BGRSB_GLINK_INTENT_SIZE ∈
      (bgrsb_configr_rsb world_closed env_null_handle true).2.calls ∧
    (bgrsb_configr_rsb world_closed env_null_handle true).1 = -EINVAL ∧
    -EINVAL ≠ -ENODEV := by
  decide

/-- C6, amended: `bgrsb_tx_msg` is gated on the channel-connected flag, not on
the handle: with `chnl_state` false it returns `-ENODEV` and touches nothing,
with `chnl_state` true it calls `glink_tx` on the handle as it is, `NULL`
included.  `bgrsb_configr_rsb` has no gate: it always calls
`glink_queue_rx_intent` on the handle as it is, and when that call reports an
error it returns that error having called nothing else but the unlock. -/
theorem protocol_client_connection_gate (w : World) (env : Env) (msg : bgrsb_msg)
    (len : Nat) (enable : Bool) :
    (w.dev.chnl_state = false → bgrsb_tx_msg w env msg len = (-ENODEV, w)) ∧
    (w.dev.chnl_state = true → (new_calls w (bgrsb_tx_msg w env msg len).2).take 3 =
      [.mutex_lock, .init_completion .tx_done, .glink_tx w.dev.handle msg len]) ∧
    (new_calls w (bgrsb_configr_rsb w env enable).2).take 4 =
      [.mutex_lock, .init_completion .bg_resp_cmplt, .init_completion .tx_done,
       .glink_queue_rx_intent w.dev.handle BGRSB_GLINK_INTENT_SIZE] ∧
    (env.queue_rx_intent ≠ 0 →
      bgrsb_configr_rsb w env enable = (env.queue_rx_intent, { w with calls := w.calls ++
        [.mutex_lock, .init_completion .bg_resp_cmplt, .init_completion .tx_done,
         .glink_queue_rx_intent w.dev.handle BGRSB_GLINK_INTENT_SIZE, .mutex_unlock] })) := by
  refine ⟨?_, ?_, ?_, ?_⟩
  · intro h; simp [tx_msg_cases, h]
  · intro h
    by_cases hg : env.glink_tx = 0 <;> simp [tx_msg_cases, h, hg, new_calls]
  · rw [new_calls_of_append w _ _ (configr_rsb_calls w env enable)]; simp
  · intro h; simp [bgrsb_configr_rsb, Id.run, call, h]

/-- The freshly initialised instance: handle `NULL`, channel flag false. -/
theorem protocol_client_connection_gate_witness :
    bgrsb_tx_msg (world_of dev_init false false) env_null_handle ⟨0x02, 0x01⟩ BGRSB_MSG_SIZE
      = (-ENODEV, world_of dev_init false false) ∧
    (bgrsb_configr_rsb (world_of dev_init false false) env_null_handle true).1 = -22 :=
  have h := protocol_client_connection_gate (world_of dev_init false false) env_null_handle
    ⟨0x02, 0x01⟩ BGRSB_MSG_SIZE true
  ⟨h.1 rfl, congrArg Prod.fst (h.2.2.2 (by decide))⟩

/-! ## The receive callback -/

/-- C7: `bgrsb_glink_notify_rx` copies `size` bytes whatever `size` is.  For a
payload longer than the 4-byte `rx_buf` the bytes from the fifth on are written
into the memory behind the array, and the response is signalled all the same:
the callback ends with `complete(&dev->bg_resp_cmplt)`. -/
theorem bgrsb_glink_notify_rx_writes_past_rx_buf (w : World) (ptr : List Nat) (size : Nat)
    (hsz : BGRSB_GLINK_INTENT_SIZE < size) :
    (∀ i, i < size - BGRSB_GLINK_INTENT_SIZE →
      (bgrsb_glink_notify_rx w ptr size).dev.past_rx_buf.getD i 0
        = ptr.getD (BGRSB_GLINK_INTENT_SIZE + i) 0) ∧
    (bgrsb_glink_notify_rx w ptr size).calls =
      w.calls ++ [.glink_rx_done w.dev.handle, .complete .bg_resp_cmplt] := by
  have h4 : 4 < size := hsz
  refine ⟨?_, by simp [bgrsb_glink_notify_rx, call]⟩
  intro i hi
  have hi2 : 4 + i < size := by simp only [BGRSB_GLINK_INTENT_SIZE] at hi; omega
  simp [bgrsb_glink_notify_rx, call, memcpy, BGRSB_GLINK_INTENT_SIZE,
    List.getD_eq_getElem?_getD, List.getElem?_append_left, hi2]

/-- The failing input of C7: an 8-byte payload delivered to the freshly
initialised instance overwrites the four bytes behind `rx_buf`. -/
theorem bgrsb_glink_notify_rx_writes_past_rx_buf_witness :
    (world_of dev_init false false).dev.past_rx_buf.getD 0 0 = 0 ∧
    (bgrsb_glink_notify_rx (world_of dev_init false false)
      [1, 2, 3, 4, 5, 6, 7, 8] 8).dev.past_rx_buf.getD 0 0 = 5 ∧
    (bgrsb_glink_notify_rx (world_of dev_init false false) [1, 2, 3, 4, 5, 6, 7, 8] 8).calls
      = [.glink_rx_done none, .complete .bg_resp_cmplt] :=
  have h := bgrsb_glink_notify_rx_writes_past_rx_buf (world_of dev_init false false)
    [1, 2, 3, 4, 5, 6, 7, 8] 8 (by decide)
  ⟨by decide, h.1 0 (by decide), h.2⟩

/-! ## Receive intents -/

/-- C8, as stated, fails for `setDelivery`: on a connected channel with every
call succeeding `bgrsb_tx_msg` transmits once and queues no receive intent. -/
theorem tx_msg_queues_no_intent :
    (bgrsb_tx_msg (world_of (dev_connected .BGRSB_STATE_RSB_CONFIGURED) true true) env_ok
      ⟨0x02, 0x01⟩ BGRSB_MSG_SIZE).1 = 0 ∧
    (bgrsb_tx_msg (world_of (dev_connected .BGRSB_STATE_RSB_CONFIGURED) true true) env_ok
      ⟨0x02, 0x01⟩ BGRSB_MSG_SIZE).2.calls =
      [.mutex_lock, .init_completion .tx_done, .glink_tx (some 1) ⟨0x02, 0x01⟩ 8,
       .wait_for_completion_timeout .tx_done 500, .mutex_unlock] ∧
    (bgrsb_tx_msg (world_of (dev_connected .BGRSB_STATE_RSB_CONFIGURED) true true) env_ok
      ⟨0x02, 0x01⟩ BGRSB_MSG_SIZE).2.calls.countP Call.is_queue_rx_intent = 0 := by
  decide

/-- C8, amended: `bgrsb_configr_rsb` takes the lock as its first call, queues
exactly one receive intent of 4 bytes and, when that succeeded, transmits its
message as the very next call; it transmits at most once (not at all when the
intent could not be queued) and releases the lock as its last call.
`bgrsb_tx_msg` queues no receive intent at all: on a connected channel it takes
the lock, transmits once, and releases the lock as its last call. -/
theorem receive_intent_only_in_configure (w : World) (env : Env) (enable : Bool)
    (msg : bgrsb_msg) (len : Nat) :
    ((bgrsb_configr_rsb w env enable).2.calls =
        w.calls ++ new_calls w (bgrsb_configr_rsb w env enable).2 ∧
      (new_calls w (bgrsb_configr_rsb w env enable).2).take 4 =
        [.mutex_lock, .init_completion .bg_resp_cmplt, .init_completion .tx_done,
         .glink_queue_rx_intent w.dev.handle BGRSB_GLINK_INTENT_SIZE] ∧
      (env.queue_rx_intent = 0 → (new_calls w (bgrsb_configr_rsb w env enable).2)[4]? =
        some (.glink_tx w.dev.handle ⟨0x01, if enable then 0x01 else 0x00⟩ BGRSB_MSG_SIZE)) ∧
      (env.queue_rx_intent ≠ 0 →
        (new_calls w (bgrsb_configr_rsb w env enable).2).countP Call.is_glink_tx = 0) ∧
      (new_calls w (bgrsb_configr_rsb w env enable).2).countP Call.is_queue_rx_intent = 1 ∧
      (new_calls w (bgrsb_configr_rsb w env enable).2).countP Call.is_glink_tx ≤ 1 ∧
      (new_calls w (bgrsb_configr_rsb w env enable).2).countP Call.is_mutex = 2 ∧
      (new_calls w (bgrsb_configr_rsb w env enable).2).getLast? = some .mutex_unlock) ∧
    ((bgrsb_tx_msg w env msg len).2.calls =
        w.calls ++ new_calls w (bgrsb_tx_msg w env msg len).2 ∧
      (new_calls w (bgrsb_tx_msg w env msg len).2).countP Call.is_queue_rx_intent = 0 ∧
      (w.dev.chnl_state = true →
        (new_calls w (bgrsb_tx_msg w env msg len).2).take 3 =
          [.mutex_lock, .init_completion .tx_done, .glink_tx w.dev.handle msg len] ∧
        (new_calls w (bgrsb_tx_msg w env msg len).2).countP Call.is_glink_tx = 1 ∧
        (new_calls w (bgrsb_tx_msg w env msg len).2).countP Call.is_mutex = 2 ∧
        (new_calls w (bgrsb_tx_msg w env msg len).2).getLast? = some .mutex_unlock)) := by
  constructor
  · have hc := configr_rsb_calls w env enable
    rw [new_calls_of_append w _ _ hc]
    refine ⟨hc, ?_⟩
    by_cases hq : env.queue_rx_intent = 0 <;> by_cases hg : env.glink_tx = 0 <;>
      by_cases hw : env.tx_done_wait = 0 <;> rcases hr : env.rx with _ | pkt <;>
      simp [hq, hg, hw, Call.is_glink_tx, Call.is_queue_rx_intent, Call.is_mutex,
        List.countP_cons]
  · by_cases hc : w.dev.chnl_state = false <;> by_cases hg : env.glink_tx = 0 <;>
      simp [tx_msg_cases, hc, hg, new_calls, Call.is_glink_tx, Call.is_queue_rx_intent,
        Call.is_mutex, List.countP_cons]

/-- Configure on a connected channel with every call succeeding: the transmit
is the call right after the queued intent. -/
theorem receive_intent_only_in_configure_witness :
    (new_calls (world_of (dev_connected .BGRSB_STATE_INIT) true false)
      (bgrsb_configr_rsb (world_of (dev_connected .BGRSB_STATE_INIT) true false) env_ok
        true).2)[4]? = some (.glink_tx (some 1) ⟨0x01, 0x01⟩ BGRSB_MSG_SIZE) :=
  (receive_intent_only_in_configure (world_of (dev_connected .BGRSB_STATE_INIT) true false)
    env_ok true ⟨0x02, 0x01⟩ BGRSB_MSG_SIZE).1.2.2.1 rfl

/-! ## Timeouts -/

/-- C9, as stated, fails: on a run of `bgrsb_configr_rsb` that reaches both
waits, the timeout handed to the send-acknowledgement wait is 1000 ms, not 500,
and the two timeouts add up to 1500 ms, not 1000. -/
theorem configr_rsb_send_ack_timeout_is_1000 :
    wait_timeouts (bgrsb_configr_rsb (world_of (dev_connected .BGRSB_STATE_INIT) true false)
      env_ok true).2.calls = [(.tx_done, 1000), (.bg_resp_cmplt, 500)] ∧
    ((wait_timeouts (bgrsb_configr_rsb (world_of (dev_connected .BGRSB_STATE_INIT) true false)
      env_ok true).2.calls).map Prod.snd).sum = 1500 := by
  decide

/-- C9, amended: `bgrsb_configr_rsb` waits at most `TIMEOUT_MS * 2` = 1000 ms
for the send-acknowledgement and then at most `TIMEOUT_MS` = 500 ms for the
response, 1500 ms in total: the waits it issues are none, the first, or the
first then the second, and they are both once the intent is queued, the send
accepted and the send acknowledged. -/
theorem bgrsb_configr_rsb_timeouts (w : World) (env : Env) (enable : Bool) :
    (wait_timeouts (new_calls w (bgrsb_configr_rsb w env enable).2) = [] ∨
      wait_timeouts (new_calls w (bgrsb_configr_rsb w env enable).2) = [(.tx_done, 1000)] ∨
      wait_timeouts (new_calls w (bgrsb_configr_rsb w env enable).2) =
        [(.tx_done, 1000), (.bg_resp_cmplt, 500)]) ∧
    ((wait_timeouts (new_calls w (bgrsb_configr_rsb w env enable).2)).map Prod.snd).sum
      ≤ 1500 ∧
    (env.queue_rx_intent = 0 → env.glink_tx = 0 → env.tx_done_wait ≠ 0 →
      wait_timeouts (new_calls w (bgrsb_configr_rsb w env enable).2) =
        [(.tx_done, 1000), (.bg_resp_cmplt, 500)]) := by
  rw [new_calls_of_append w _ _ (configr_rsb_calls w env enable)]
  by_cases hq : env.queue_rx_intent = 0 <;> by_cases hg : env.glink_tx = 0 <;>
    by_cases hw : env.tx_done_wait = 0 <;> rcases hr : env.rx with _ | pkt <;>
    simp [hq, hg, hw, wait_timeouts, Call.wait_timeout, TIMEOUT_MS, List.filterMap_cons]

/-- Configure on a connected channel with every call succeeding. -/
theorem bgrsb_configr_rsb_timeouts_witness :
    wait_timeouts (new_calls (world_of (dev_connected .BGRSB_STATE_INIT) true false)
      (bgrsb_configr_rsb (world_of (dev_connected .BGRSB_STATE_INIT) true false) env_ok
        true).2) = [(.tx_done, 1000), (.bg_resp_cmplt, 500)] :=
  (bgrsb_configr_rsb_timeouts (world_of (dev_connected .BGRSB_STATE_INIT) true false) env_ok
    true).2.2 rfl rfl (by decide)

end BgRsb
